/-
Verification of the qtcast transcode-and-stream pipeline.

Shallow embedding of the decision, job-lifecycle, progress-parsing and
range-wait logic of `qtcast/transcoder.py`, `qtcast/devices.py`,
`qtcast/ffmpeg.py` and the job-table logic of `qtcast/main.py`
(`_create_transcoder`), together with theorems checking the
natural-language specification against it.
-/
import Mathlib

set_option autoImplicit false

namespace QtCast

/-- Device capability record, from `devices.py` (`@dataclass Device`). -/
structure Device where
  manufacturer : String
  model_name : String
  h265 : Bool
  ac3 : Bool
deriving DecidableEq

/-- The static device table `_devices` of `devices.py`, in source order. -/
def devicesList : List Device :=
  [ ⟨"Unknown manufacturer", "Chromecast", false, false⟩,
    ⟨"Unknown manufacturer", "Chromecast Ultra", true, true⟩,
    ⟨"Unknown manufacturer", "Google Home Mini", false, false⟩,
    ⟨"Google", "Google TV Streamer", true, true⟩,
    ⟨"Google Inc.", "Chromecast", false, false⟩,
    ⟨"Google Inc.", "Chromecast Ultra", true, true⟩,
    ⟨"Sony", "BRAVIA", true, true⟩,
    ⟨"TCL", "Chromecast", true, true⟩,
    ⟨"Philips", "Chromecast", true, true⟩,
    ⟨"Sharp", "Chromecast", true, true⟩,
    ⟨"Toshiba", "Chromecast", true, true⟩,
    ⟨"Hisense", "Chromecast", true, true⟩,
    ⟨"Xiaomi", "Mi TV", true, true⟩,
    ⟨"VIZIO", "P75-F1", true, true⟩ ]

/-- Registry lookup `get_device` of `devices.py`: exact manufacturer/model
match, defaulting to `h265=False, ac3=False` for an unknown identity. -/
def get_device (manufacturer model_name : String) : Device :=
  match devicesList.find?
      (fun d => d.manufacturer == manufacturer && d.model_name == model_name) with
  | some d => d
  | none => ⟨"Unknown manufacturer", "Default", false, false⟩

/-- Video/subtitle stream descriptor (`StreamMetadata` in `main.py`):
an opaque ffmpeg stream selector and a codec tag. -/
structure StreamMetadata where
  index : String
  codec : String
deriving DecidableEq

/-- Audio stream descriptor (`AudioMetadata` in `main.py`): adds a channel
count, which the prober defaults to 2 (stereo) when undetermined. -/
structure AudioMetadata where
  index : String
  codec : String
  channels : Nat
deriving DecidableEq

/-- The effective H.265 capability used by `Transcoder.can_play_video_codec`:
`h265 = False if self.cast.cast_info.cast_type == "audio" else self.device.h265`. -/
def effective_h265 (cast_type : String) (d : Device) : Bool :=
  if cast_type == "audio" then false else d.h265

/-- `Transcoder.can_play_video_codec` (transcoder.py lines 123-128). -/
def can_play_video_codec (cast_type : String) (d : Device) (video_codec : String) : Bool :=
  if effective_h265 cast_type d then
    video_codec == "h264" || video_codec == "h265" || video_codec == "hevc"
  else
    video_codec == "h264"

/-- `Transcoder.can_play_audio_stream` (transcoder.py lines 130-136):
a missing stream is always playable. -/
def can_play_audio_stream (d : Device) (stream : Option AudioMetadata) : Bool :=
  match stream with
  | none => true
  | some s =>
    if d.ac3 then
      s.codec == "aac" || s.codec == "mp3" || s.codec == "ac3"
    else
      s.codec == "aac" || s.codec == "mp3"

/-- State of a `Transcoder` object after `__init__` (transcoder.py).
`failed` is a ghost flag marking that `transcode_error` was emitted by the
monitor (the Python object stores no such flag; nothing else distinguishes
a failed job from a running one), used only to name the spec's `Failed`
state. `spawned` records `self.p is not None`. -/
structure Transcoder where
  source_fn : String
  container : String
  cast_type : String
  device : Device
  video_stream : StreamMetadata
  audio_stream : Option AudioMetadata
  transcode_container : Bool
  transcode_video : Bool
  transcode_audio : Bool
  transcode : Bool
  trans_fn : Option String
  progress_bytes : Int
  progress_seconds : ℚ
  done : Bool
  destroyed : Bool
  failed : Bool
  spawned : Bool
deriving DecidableEq

/-- The pure state computed by `Transcoder.__init__` (transcoder.py lines
50-117): container/video/audio decisions, the temp output path (`tmp` stands
for the fresh path returned by `tempfile.mkstemp`, present exactly when the
plan transcodes), `done=True` with no process for a pure passthrough. -/
def mkTranscoder (cast_type : String) (d : Device) (container source_fn tmp_fn : String)
    (video_stream : StreamMetadata) (audio_stream : Option AudioMetadata) : Transcoder :=
  let transcode_container :=
    !(container == "mp4" || container == "aac" || container == "mp3" || container == "wav")
  let transcode_video := !(can_play_video_codec cast_type d video_stream.codec)
  let transcode_audio := !(can_play_audio_stream d audio_stream)
  let transcode := transcode_container || transcode_video || transcode_audio
  { source_fn := source_fn
    container := container
    cast_type := cast_type
    device := d
    video_stream := video_stream
    audio_stream := audio_stream
    transcode_container := transcode_container
    transcode_video := transcode_video
    transcode_audio := transcode_audio
    transcode := transcode
    trans_fn := if transcode then some tmp_fn else none
    progress_bytes := 0
    progress_seconds := 0
    done := !transcode
    destroyed := false
    failed := false
    spawned := transcode }

/-- The `fn` property (transcoder.py lines 119-121):
`self.trans_fn if self.transcode else self.source_fn`. -/
def Transcoder.fn (t : Transcoder) : Option String :=
  if t.transcode then t.trans_fn else some t.source_fn

/-- `transcode_audio_to` (transcoder.py lines 80-84): `"ac3" if
self.device.ac3 and audio_stream and audio_stream.channels > 2 else "mp3"`. -/
def transcode_audio_to (d : Device) (audio_stream : Option AudioMetadata) : String :=
  if d.ac3 && (match audio_stream with
               | some s => decide (2 < s.channels)
               | none => false) then "ac3" else "mp3"

/-- The ffmpeg command list built by `Transcoder.__init__` (transcoder.py
lines 86-104); only built when the plan transcodes, in which case
`t.trans_fn.getD ""` is the temp path. -/
def transcode_cmd (t : Transcoder) : List String :=
  let base := ["ffmpeg", "-i", t.source_fn, "-map", t.video_stream.index]
  let withAudio :=
    match t.audio_stream with
    | some a =>
      base ++ ["-map", a.index, "-c:a",
               if t.transcode_audio then transcode_audio_to t.device t.audio_stream
               else "copy"]
        ++ (if t.transcode_audio then ["-b:a", "256k"] else [])
    | none => base
  withAudio ++ ["-c:v", if t.transcode_video then "h264" else "copy", t.trans_fn.getD ""]

/-- Signals a `Transcoder` can emit (the `pyqtSignal` declarations at
transcoder.py lines 22-24); `err` is the `transcode_error` channel. -/
inductive Sig where
  | progressUpd (bytes : Int) (seconds : ℚ)
  | completed (did_transcode : Bool)
  | err (message : String)
deriving DecidableEq

/-- The spec's job states (§3). -/
inductive JobState where
  | Running
  | Done
  | Failed
  | Destroyed
deriving DecidableEq

/-- Classification of a transcoder's flags into the spec's job states:
`destroyed` marks `Destroyed`, else `done` marks `Done`, else the ghost
`failed` flag marks `Failed`, else the job is `Running`. -/
def Transcoder.state (t : Transcoder) : JobState :=
  if t.destroyed then JobState.Destroyed
  else if t.done then JobState.Done
  else if t.failed then JobState.Failed
  else JobState.Running

/-- Construction of a `Transcoder` including the process spawn
(transcoder.py lines 109-117): a transcoding plan runs `subprocess.Popen`,
which raises (uncaught by `__init__`) when the encoder binary is missing;
a passthrough plan spawns nothing and emits `transcode_completed(False)`.
The result pairs the constructed object with the signals emitted during
construction. -/
def initTranscoder (ffmpeg_available : Bool) (cast_type : String) (d : Device)
    (container source_fn tmp_fn : String) (video_stream : StreamMetadata)
    (audio_stream : Option AudioMetadata) : Except String (Transcoder × List Sig) :=
  let t := mkTranscoder cast_type d container source_fn tmp_fn video_stream audio_stream
  if t.transcode then
    if ffmpeg_available then Except.ok (t, [])
    else Except.error "FileNotFoundError: ffmpeg"
  else Except.ok (t, [Sig.completed false])

/-- End of `Transcoder.monitor` (transcoder.py lines 176-186), reached when
the process has exited with code `rc` having produced `out` on its combined
output: nonzero exit on a non-destroyed job emits `transcode_error` (without
touching `done`); zero exit on a non-destroyed job sets `done` and emits
`transcode_completed(True)`; a destroyed job does nothing. -/
def monitorFinish (t : Transcoder) (rc : Int) (out : String) : Transcoder × List Sig :=
  if rc ≠ 0 ∧ t.destroyed = false then
    ({ t with failed := true }, [Sig.err out])
  else if t.destroyed = false then
    ({ t with done := true }, [Sig.completed true])
  else
    (t, [])

/-- The guard of `_create_transcoder` (main.py lines 743-751): the job-table
update returns without creating a new transcoder iff an old transcoder
exists and its `destroyed` flag is unset ("Don't create a new transcoder if
one already exists and is working"). `true` means a fresh transcoder is
started. -/
def create_transcoder_proceeds (old : Option Transcoder) : Bool :=
  match old with
  | some t => t.destroyed
  | none => true

/-- Effect of `Transcoder.destroy` (transcoder.py lines 188-193) on the set
of files on disk: `os.remove(self.trans_fn)` guarded by `os.path.isfile`,
i.e. erase the temp path when there is one; a passthrough job
(`trans_fn = None`) removes nothing. -/
def destroyFiles (t : Transcoder) (fs : Finset String) : Finset String :=
  match t.trans_fn with
  | some f => fs.erase f
  | none => fs

/-- A state of the transcoder as observed by one iteration of
`wait_for_byte`'s polling loop. -/
structure WaitObs where
  progress_bytes : Int
  done : Bool
deriving DecidableEq

/-- The loop guard of `Transcoder.wait_for_byte` (transcoder.py lines
142-149): for an mp4-named source, keep waiting while
`offset > self.progress_bytes + buffer`; otherwise while `not self.done`. -/
def waitGuard (isMp4 : Bool) (offset buffer : Int) (o : WaitObs) : Bool :=
  if isMp4 then decide (o.progress_bytes + buffer < offset) else !o.done

/-- The default `buffer` argument of `wait_for_byte`: 128 MiB. -/
def bufferDefault : Int := 128 * 1024 * 1024

/-- Termination of `wait_for_byte` over a trace of observed states (one per
poll iteration): the call returns iff the job was already `done` at entry
(line 139) or some poll iteration sees the loop guard false. -/
def waitReturns (isMp4 : Bool) (offset buffer : Int) (trace : Nat → WaitObs) : Prop :=
  (trace 0).done = true ∨ ∃ k, waitGuard isMp4 offset buffer (trace k) = false

/-- Python `str.lower` on a character list. -/
def pyLower (cs : List Char) : List Char :=
  cs.map Char.toLower

/-- Split a character list at every occurrence of `sep`, Python
`str.split(sep)`: never drops empty fields, `[] ↦ [""]`. -/
def splitCharAux (sep : Char) : List Char → List Char → List (List Char)
  | [], acc => [acc.reverse]
  | c :: rest, acc =>
    if c = sep then acc.reverse :: splitCharAux sep rest []
    else splitCharAux sep rest (c :: acc)

/-- Split at a separator character (Python `str.split(sep)`). -/
def splitChar (sep : Char) (cs : List Char) : List (List Char) :=
  splitCharAux sep cs []

/-- The test `self.source_fn.lower().split(".")[-1] == "mp4"` of
`wait_for_byte` (transcoder.py line 142), selecting the byte-offset regime. -/
def sourceIsMp4 (fn : String) : Bool :=
  decide ((splitChar '.' (pyLower fn.data)).getLastD [] = ['m', 'p', '4'])

/-- Python `str.split()` with no argument: split on runs of whitespace,
dropping empty fields. -/
def splitWsAux : List Char → List Char → List (List Char)
  | [], [] => []
  | [], acc => [acc.reverse]
  | c :: rest, acc =>
    if c.isWhitespace then
      (if acc.isEmpty then splitWsAux rest [] else acc.reverse :: splitWsAux rest [])
    else splitWsAux rest (c :: acc)

/-- Python `line.split()` (whitespace, empties dropped). -/
def splitWs (cs : List Char) : List (List Char) :=
  splitWsAux cs []

/-- The substitution `re.sub(r"=\s+", "=", line)` of `Transcoder.monitor`
(transcoder.py lines 154, 165): whitespace directly following an `=` is
dropped. The flag records whether the scan sits right after an `=` (or
after whitespace already being dropped for one). -/
def subEqWsAux : Bool → List Char → List Char
  | _, [] => []
  | afterEq, c :: rest =>
    if afterEq && c.isWhitespace then subEqWsAux true rest
    else if c = '=' then '=' :: subEqWsAux true rest
    else c :: subEqWsAux false rest

/-- Apply `re.sub(r"=\s+", "=", ·)` to a character list. -/
def subEqWs (cs : List Char) : List Char :=
  subEqWsAux false cs

/-- Python `str.strip()` on a character list (used by `int()`/`float()`
which ignore surrounding whitespace). -/
def pyStrip (cs : List Char) : List Char :=
  ((cs.dropWhile Char.isWhitespace).reverse.dropWhile Char.isWhitespace).reverse

/-- Python `str.rstrip(chars)`: drop trailing characters belonging to `cs`. -/
def pyRstrip (s : List Char) (cs : List Char) : List Char :=
  (s.reverse.dropWhile (fun c => cs.contains c)).reverse

/-- Numeric value of a digit list. -/
def digitsValNat (cs : List Char) : Nat :=
  cs.foldl (fun n c => n * 10 + (c.toNat - 48)) 0

/-- Python `int(s)` on the decimal strings that can reach the monitor:
optional surrounding whitespace and sign, then at least one digit;
anything else raises `ValueError`, modelled as `none`. -/
def pyInt (s : List Char) : Option Int :=
  let t := pyStrip s
  let signBody : Int × List Char :=
    match t with
    | '-' :: rest => (-1, rest)
    | '+' :: rest => (1, rest)
    | _ => (1, t)
  if signBody.2 ≠ [] ∧ signBody.2.all Char.isDigit then
    some (signBody.1 * (digitsValNat signBody.2 : Int))
  else none

/-- Python `float(s)` on the decimal strings ffmpeg time fields contain:
optional whitespace/sign, digits with an optional fractional point (at
least one digit overall); anything else raises `ValueError` (`none`). -/
def pyFloat (s : List Char) : Option ℚ :=
  let t := pyStrip s
  let signBody : ℚ × List Char :=
    match t with
    | '-' :: rest => (-1, rest)
    | '+' :: rest => (1, rest)
    | _ => (1, t)
  match splitChar '.' signBody.2 with
  | [ip] =>
    if ip ≠ [] ∧ ip.all Char.isDigit then
      some (signBody.1 * (digitsValNat ip : ℚ))
    else none
  | [ip, fp] =>
    if (ip ≠ [] ∨ fp ≠ []) ∧ ip.all Char.isDigit ∧ fp.all Char.isDigit then
      some (signBody.1 * ((digitsValNat ip : ℚ) + (digitsValNat fp : ℚ) / 10 ^ fp.length))
    else none
  | _ => none

/-- `parse_ffmpeg_time` (ffmpeg.py lines 9-11): split on `:`, unpack exactly
three float fields, return `h*3600 + m*60 + s`; a field count other than
three or a non-float field raises `ValueError` (`none`). -/
def parse_ffmpeg_time (time_s : String) : Option ℚ :=
  match (splitChar ':' time_s.data).map pyFloat with
  | [some h, some m, some s] => some (h * 60 * 60 + m * 60 + s)
  | _ => none

/-- The size field conversion of `Transcoder.monitor` (transcoder.py line
170): `int(v.lower().rstrip("kib"))`, where `v` is the record's size value. -/
def parseSize (v : String) : Option Int :=
  pyInt (pyRstrip (pyLower v.data) ['k', 'i', 'b'])

/-- Tokenisation of one progress record (transcoder.py lines 166-167):
whitespace-separated tokens split on `=`, keeping exactly the two-part ones. -/
def parsePairs (line : String) : List (String × String) :=
  (splitWs line.data).filterMap fun tok =>
    match splitChar '=' tok with
    | [k, v] => some (String.mk k, String.mk v)
    | _ => none

/-- Python `dict(pairs).get(k, dflt)`: the value of the last pair bound to
`k`, or the default. -/
def dictGet (pairs : List (String × String)) (k dflt : String) : String :=
  match pairs.reverse.find? (fun p => p.1 == k) with
  | some p => p.2
  | none => dflt

/-- Processing of one carriage-return-delimited record by
`Transcoder.monitor` (transcoder.py lines 164-174): regex-collapse the
whitespace after `=`, build the key-value dict, then compute
`progress_bytes = int(size.lower().rstrip("kib")) * 1024` (size defaulting
to `"0kb"`) and `progress_seconds = parse_ffmpeg_time(time)` (time
defaulting to `"00:00:00"`). A `ValueError` in either conversion is not
caught anywhere in `monitor`, modelled as `none`. -/
def progressOfRecord (line : String) : Option (Int × ℚ) :=
  let pairs := parsePairs (String.mk (subEqWs line.data))
  match parseSize (dictGet pairs "size" "0kb"),
        parse_ffmpeg_time (dictGet pairs "time" "00:00:00") with
  | some n, some t => some (n * 1024, t)
  | _, _ => none

/-- The record loop of `Transcoder.monitor` over the sequence of complete
records read from the process: each parsed record yields a progress update
(in order); an uncaught `ValueError` terminates the monitor thread, so no
later record is processed. Returns the updates emitted and whether the
monitor survived to the end of the record list. -/
def monitorProcess : List String → List (Int × ℚ) × Bool
  | [] => ([], true)
  | r :: rs =>
    match progressOfRecord r with
    | some p =>
      let rest := monitorProcess rs
      (p :: rest.1, rest.2)
    | none => ([], false)

/-- Modelled from the spec: the two conditions §4.4 says the streaming-regime
wait may return under — `bytesProduced ≥ O + bufferWindow` or the job being
`Done`. Stated only to be compared against the code's `waitGuard`. -/
def specWaitCond (offset buffer : Int) (o : WaitObs) : Prop :=
  offset + buffer ≤ o.progress_bytes ∨ o.done = true

/-- Any device can play h264 video, whatever the cast type. -/
lemma can_play_h264 (ct : String) (d : Device) : can_play_video_codec ct d "h264" = true := by
  unfold can_play_video_codec
  split <;> simp

/-- No device can play an eac3 stream. -/
lemma cannot_play_eac3 (d : Device) (ai : String) (ch : Nat) :
    can_play_audio_stream d (some ⟨ai, "eac3", ch⟩) = false := by
  cases hd : d.ac3 <;> simp [can_play_audio_stream, hd]

/-- C1. The spec's end-to-end scenario B claims `transcodeAudio=false` for an
ac3-capable device with an mkv/h264/eac3-6ch source; on the code,
`can_play_audio_stream` rejects eac3 even for ac3 devices, so
`transcode_audio` is `true` at that very input (the registry's
"Chromecast Ultra", `ac3=true`). -/
theorem scenarioB_eac3_cex :
    (get_device "Unknown manufacturer" "Chromecast Ultra").ac3 = true
    ∧ (mkTranscoder "cast" (get_device "Unknown manufacturer" "Chromecast Ultra")
        "mkv" "/m.mkv" "/t.mp4" ⟨"0:0", "h264"⟩ (some ⟨"0:1", "eac3", 6⟩)).transcode_audio
      = true := by
  decide

/-- C1 (amended). For every ac3-capable device record and the mkv/h264/eac3
6-channel source, the plan has `remuxContainer=true`, `transcodeVideo=false`
and `transcodeAudio=true`: a process is spawned that copies the video stream
and re-encodes the audio to ac3 at 256 kbps into mp4. -/
theorem scenarioB_plan (ct src tmp vi ai : String) (d : Device) (hac3 : d.ac3 = true) :
    (mkTranscoder ct d "mkv" src tmp ⟨vi, "h264"⟩ (some ⟨ai, "eac3", 6⟩)).transcode_container = true
    ∧ (mkTranscoder ct d "mkv" src tmp ⟨vi, "h264"⟩ (some ⟨ai, "eac3", 6⟩)).transcode_video = false
    ∧ (mkTranscoder ct d "mkv" src tmp ⟨vi, "h264"⟩ (some ⟨ai, "eac3", 6⟩)).transcode_audio = true
    ∧ (mkTranscoder ct d "mkv" src tmp ⟨vi, "h264"⟩ (some ⟨ai, "eac3", 6⟩)).spawned = true
    ∧ transcode_cmd (mkTranscoder ct d "mkv" src tmp ⟨vi, "h264"⟩ (some ⟨ai, "eac3", 6⟩))
      = ["ffmpeg", "-i", src, "-map", vi, "-map", ai,
         "-c:a", "ac3", "-b:a", "256k", "-c:v", "copy", tmp] := by
  have hv := can_play_h264 ct d
  have ha := cannot_play_eac3 d ai 6
  refine ⟨rfl, ?_, ?_, ?_, ?_⟩ <;>
    simp [mkTranscoder, transcode_cmd, transcode_audio_to, hv, ha, hac3]

/-- C1 witness: scenario B at a concrete registry device and file. -/
theorem scenarioB_plan_witness :
    (mkTranscoder "cast" ⟨"Unknown manufacturer", "Chromecast Ultra", true, true⟩
        "mkv" "/b.mkv" "/b.mp4" ⟨"0:0", "h264"⟩ (some ⟨"0:1", "eac3", 6⟩)).transcode_container = true
    ∧ (mkTranscoder "cast" ⟨"Unknown manufacturer", "Chromecast Ultra", true, true⟩
        "mkv" "/b.mkv" "/b.mp4" ⟨"0:0", "h264"⟩ (some ⟨"0:1", "eac3", 6⟩)).transcode_video = false
    ∧ (mkTranscoder "cast" ⟨"Unknown manufacturer", "Chromecast Ultra", true, true⟩
        "mkv" "/b.mkv" "/b.mp4" ⟨"0:0", "h264"⟩ (some ⟨"0:1", "eac3", 6⟩)).transcode_audio = true
    ∧ (mkTranscoder "cast" ⟨"Unknown manufacturer", "Chromecast Ultra", true, true⟩
        "mkv" "/b.mkv" "/b.mp4" ⟨"0:0", "h264"⟩ (some ⟨"0:1", "eac3", 6⟩)).spawned = true
    ∧ transcode_cmd (mkTranscoder "cast" ⟨"Unknown manufacturer", "Chromecast Ultra", true, true⟩
        "mkv" "/b.mkv" "/b.mp4" ⟨"0:0", "h264"⟩ (some ⟨"0:1", "eac3", 6⟩))
      = ["ffmpeg", "-i", "/b.mkv", "-map", "0:0", "-map", "0:1",
         "-c:a", "ac3", "-b:a", "256k", "-c:v", "copy", "/b.mp4"] :=
  scenarioB_plan "cast" "/b.mkv" "/b.mp4" "0:0" "0:1"
    ⟨"Unknown manufacturer", "Chromecast Ultra", true, true⟩ rfl

lemma mk_source_fn (ct cont src tmp : String) (d : Device) (v : StreamMetadata)
    (a : Option AudioMetadata) : (mkTranscoder ct d cont src tmp v a).source_fn = src := rfl

lemma mk_trans_fn (ct cont src tmp : String) (d : Device) (v : StreamMetadata)
    (a : Option AudioMetadata) :
    (mkTranscoder ct d cont src tmp v a).trans_fn
      = (if (mkTranscoder ct d cont src tmp v a).transcode then some tmp else none) := rfl

lemma mk_done (ct cont src tmp : String) (d : Device) (v : StreamMetadata)
    (a : Option AudioMetadata) :
    (mkTranscoder ct d cont src tmp v a).done
      = !(mkTranscoder ct d cont src tmp v a).transcode := rfl

lemma mk_spawned (ct cont src tmp : String) (d : Device) (v : StreamMetadata)
    (a : Option AudioMetadata) :
    (mkTranscoder ct d cont src tmp v a).spawned
      = (mkTranscoder ct d cont src tmp v a).transcode := rfl

lemma mk_transcode (ct cont src tmp : String) (d : Device) (v : StreamMetadata)
    (a : Option AudioMetadata) :
    (mkTranscoder ct d cont src tmp v a).transcode
      = ((mkTranscoder ct d cont src tmp v a).transcode_container
         || (mkTranscoder ct d cont src tmp v a).transcode_video
         || (mkTranscoder ct d cont src tmp v a).transcode_audio) := rfl

lemma mk_transcode_video (ct cont src tmp : String) (d : Device) (v : StreamMetadata)
    (a : Option AudioMetadata) :
    (mkTranscoder ct d cont src tmp v a).transcode_video
      = !(can_play_video_codec ct d v.codec) := rfl

lemma mk_transcode_audio (ct cont src tmp : String) (d : Device) (v : StreamMetadata)
    (a : Option AudioMetadata) :
    (mkTranscoder ct d cont src tmp v a).transcode_audio
      = !(can_play_audio_stream d a) := rfl

lemma mk_transcode_container (ct cont src tmp : String) (d : Device) (v : StreamMetadata)
    (a : Option AudioMetadata) :
    (mkTranscoder ct d cont src tmp v a).transcode_container
      = !(cont == "mp4" || cont == "aac" || cont == "mp3" || cont == "wav") := rfl

lemma mk_fn (ct cont src tmp : String) (d : Device) (v : StreamMetadata)
    (a : Option AudioMetadata) :
    Transcoder.fn (mkTranscoder ct d cont src tmp v a)
      = (if (mkTranscoder ct d cont src tmp v a).transcode then some tmp else some src) := by
  unfold Transcoder.fn
  rw [mk_trans_fn]
  cases h : (mkTranscoder ct d cont src tmp v a).transcode <;>
    simp [h, mk_source_fn]

/-- C4. `transcode_video` is the negation of
`codec == "h264" OR (effective h265 AND codec ∈ {"h265","hevc"})`, where the
effective H.265 capability is the registry bit gated off for an audio-only
cast type — so an audio-only device never enables H.265 passthrough, whatever
its record says. -/
theorem transcode_video_formula (ct cont src tmp : String) (d : Device)
    (v : StreamMetadata) (a : Option AudioMetadata) :
    ((mkTranscoder ct d cont src tmp v a).transcode_video
      = !(v.codec == "h264" || (effective_h265 ct d && (v.codec == "h265" || v.codec == "hevc"))))
    ∧ ∀ d2 : Device, effective_h265 "audio" d2 = false := by
  constructor
  · rw [mk_transcode_video]
    unfold can_play_video_codec
    cases h : effective_h265 ct d <;> simp [h, Bool.or_assoc]
  · intro d2
    rfl

/-- C5. When audio is transcoded the target codec is ac3 exactly when the
device supports AC3 and the source has more than two channels, and mp3
otherwise; the synthesized command re-encodes at 256 kbps exactly when
transcoding audio and copies the stream otherwise. -/
theorem audio_target_rule (ct cont src tmp : String) (d : Device)
    (v : StreamMetadata) (a : AudioMetadata) (t : Transcoder)
    (ht : t = mkTranscoder ct d cont src tmp v (some a)) :
    (transcode_audio_to d (some a) = if d.ac3 = true ∧ 2 < a.channels then "ac3" else "mp3")
    ∧ transcode_cmd t
      = ["ffmpeg", "-i", src, "-map", v.index, "-map", a.index,
         "-c:a", if t.transcode_audio then transcode_audio_to d (some a) else "copy"]
        ++ (if t.transcode_audio then ["-b:a", "256k"] else [])
        ++ ["-c:v", if t.transcode_video then "h264" else "copy", t.trans_fn.getD ""] := by
  subst ht
  constructor
  · unfold transcode_audio_to
    cases hb : d.ac3 <;> cases hc : decide (2 < a.channels) <;>
      simp_all [decide_eq_true_eq]
  · rfl

/-- C5 witness: a 6-channel dts source on an ac3 device is re-encoded to
ac3 at 256 kbps; the video stream of the same plan is copied. -/
theorem audio_target_rule_witness :
    (transcode_audio_to ⟨"Sony", "BRAVIA", true, true⟩ (some ⟨"0:1", "dts", 6⟩)
      = if (⟨"Sony", "BRAVIA", true, true⟩ : Device).ac3 = true
          ∧ 2 < (⟨"0:1", "dts", 6⟩ : AudioMetadata).channels then "ac3" else "mp3")
    ∧ transcode_cmd (mkTranscoder "tv" ⟨"Sony", "BRAVIA", true, true⟩ "mkv" "/c.mkv" "/c.mp4"
        ⟨"0:0", "h264"⟩ (some ⟨"0:1", "dts", 6⟩))
      = ["ffmpeg", "-i", "/c.mkv", "-map", "0:0", "-map", "0:1", "-c:a",
         if (mkTranscoder "tv" ⟨"Sony", "BRAVIA", true, true⟩ "mkv" "/c.mkv" "/c.mp4"
              ⟨"0:0", "h264"⟩ (some ⟨"0:1", "dts", 6⟩)).transcode_audio
         then transcode_audio_to ⟨"Sony", "BRAVIA", true, true⟩ (some ⟨"0:1", "dts", 6⟩)
         else "copy"]
        ++ (if (mkTranscoder "tv" ⟨"Sony", "BRAVIA", true, true⟩ "mkv" "/c.mkv" "/c.mp4"
                 ⟨"0:0", "h264"⟩ (some ⟨"0:1", "dts", 6⟩)).transcode_audio
            then ["-b:a", "256k"] else [])
        ++ ["-c:v",
            if (mkTranscoder "tv" ⟨"Sony", "BRAVIA", true, true⟩ "mkv" "/c.mkv" "/c.mp4"
                 ⟨"0:0", "h264"⟩ (some ⟨"0:1", "dts", 6⟩)).transcode_video
            then "h264" else "copy",
            (mkTranscoder "tv" ⟨"Sony", "BRAVIA", true, true⟩ "mkv" "/c.mkv" "/c.mp4"
              ⟨"0:0", "h264"⟩ (some ⟨"0:1", "dts", 6⟩)).trans_fn.getD ""] :=
  audio_target_rule "tv" "mkv" "/c.mkv" "/c.mp4" ⟨"Sony", "BRAVIA", true, true⟩
    ⟨"0:0", "h264"⟩ ⟨"0:1", "dts", 6⟩ _ rfl

/-- C6. The plan is a pure passthrough iff none of the three flags is set; a
passthrough spawns no process, is `done` at once and serves the source path,
while any other plan's output is the private temp path; in particular an
H.265+AC3-capable (effective) device with an mp4/h265/ac3 source is a
passthrough. -/
theorem noop_passthrough_plan (ct cont src tmp : String) (d : Device)
    (v : StreamMetadata) (a : Option AudioMetadata) (t : Transcoder)
    (ht : t = mkTranscoder ct d cont src tmp v a) :
    (t.transcode = false
      ↔ t.transcode_container = false ∧ t.transcode_video = false ∧ t.transcode_audio = false)
    ∧ t.spawned = t.transcode
    ∧ Transcoder.fn t = (if t.transcode then some tmp else some src)
    ∧ (t.transcode = false → t.done = true ∧ t.spawned = false ∧ Transcoder.fn t = some src)
    ∧ (effective_h265 ct d = true → d.ac3 = true → cont = "mp4" → v.codec = "h265" →
        Option.map AudioMetadata.codec a = some "ac3" →
        t.transcode = false ∧ t.spawned = false ∧ Transcoder.fn t = some src ∧ t.done = true) := by
  subst ht
  refine ⟨?_, mk_spawned ct cont src tmp d v a, mk_fn ct cont src tmp d v a, ?_, ?_⟩
  · rw [mk_transcode]
    simp [Bool.or_eq_false_iff, and_assoc]
  · intro h
    refine ⟨?_, ?_, ?_⟩
    · rw [mk_done, h]
      rfl
    · rw [mk_spawned, h]
    · rw [mk_fn, h]
      simp
  · intro heff hac3 hcont hv ha
    obtain ⟨s, rfl, hs⟩ : ∃ s, a = some s ∧ s.codec = "ac3" := by
      cases a with
      | none => simp at ha
      | some s => exact ⟨s, rfl, by simpa using ha⟩
    have htr : (mkTranscoder ct d cont src tmp v (some s)).transcode = false := by
      rw [mk_transcode, mk_transcode_container, mk_transcode_video, mk_transcode_audio]
      simp only [Bool.or_eq_false_iff]
      refine ⟨⟨?_, ?_⟩, ?_⟩
      · simp [hcont]
      · simp [can_play_video_codec, heff, hv]
      · simp [can_play_audio_stream, hac3, hs]
    refine ⟨htr, ?_, ?_, ?_⟩
    · rw [mk_spawned, htr]
    · rw [mk_fn, htr]
      simp
    · rw [mk_done, htr]
      rfl

/-- C6 witness: H.265+AC3 device, mp4 container, h265 video, ac3 audio —
a pure passthrough serving the source path with no process. -/
theorem noop_passthrough_plan_witness :
    (mkTranscoder "tv" ⟨"Sony", "BRAVIA", true, true⟩ "mp4" "/d.mp4" "/dt.mp4"
        ⟨"0:0", "h265"⟩ (some ⟨"0:1", "ac3", 6⟩)).transcode = false
    ∧ (mkTranscoder "tv" ⟨"Sony", "BRAVIA", true, true⟩ "mp4" "/d.mp4" "/dt.mp4"
        ⟨"0:0", "h265"⟩ (some ⟨"0:1", "ac3", 6⟩)).spawned = false
    ∧ Transcoder.fn (mkTranscoder "tv" ⟨"Sony", "BRAVIA", true, true⟩ "mp4" "/d.mp4" "/dt.mp4"
        ⟨"0:0", "h265"⟩ (some ⟨"0:1", "ac3", 6⟩)) = some "/d.mp4"
    ∧ (mkTranscoder "tv" ⟨"Sony", "BRAVIA", true, true⟩ "mp4" "/d.mp4" "/dt.mp4"
        ⟨"0:0", "h265"⟩ (some ⟨"0:1", "ac3", 6⟩)).done = true :=
  (noop_passthrough_plan "tv" "mp4" "/d.mp4" "/dt.mp4" ⟨"Sony", "BRAVIA", true, true⟩
      ⟨"0:0", "h265"⟩ (some ⟨"0:1", "ac3", 6⟩) _ rfl).2.2.2.2
    (by decide) rfl rfl rfl rfl

/-- C2. At offset 1000 with the default 128 MiB buffer, zero bytes produced
and the job not `Done`, the mp4-regime wait returns immediately — although
neither of the spec's conditions (`bytesProduced ≥ O + bufferWindow` or
`Done`) holds, refuting "it returns only when one of these two conditions
holds". -/
theorem wait_lookahead_cex :
    waitReturns true 1000 bufferDefault (fun _ => ⟨0, false⟩)
    ∧ ¬ specWaitCond 1000 bufferDefault ⟨0, false⟩ :=
  ⟨Or.inr ⟨0, by decide⟩, by unfold specWaitCond bufferDefault; decide⟩

/-- C2 (amended). In the mp4-named regime the wait returns exactly when the
job was already `Done` on entry or some poll sees
`bytesProduced + bufferWindow ≥ O` (bufferWindow = 128 MiB): the buffer is a
tolerance for serving ahead of production, not a required look-ahead, and
`Done` is consulted only at entry; for a non-mp4-named source the wait
returns exactly when some poll sees `Done`. -/
theorem wait_return_characterization (offset : Int) (trace : Nat → WaitObs) :
    (waitReturns true offset bufferDefault trace
      ↔ ((trace 0).done = true
         ∨ ∃ k, offset ≤ (trace k).progress_bytes + 128 * 1024 * 1024))
    ∧ (waitReturns false offset bufferDefault trace ↔ ∃ k, (trace k).done = true) := by
  constructor
  · unfold waitReturns waitGuard bufferDefault
    simp [not_lt]
  · unfold waitReturns waitGuard
    constructor
    · rintro (h0 | ⟨k, hk⟩)
      · exact ⟨0, h0⟩
      · exact ⟨k, by simpa using hk⟩
    · rintro ⟨k, hk⟩
      exact Or.inr ⟨k, by simp [hk]⟩

/-- C3. The wait never observes a failure: a `Failed` transition leaves
`done` unset (first conjunct: `monitorFinish` with nonzero exit emits
`transcode_error` without touching `done`), so a non-mp4-regime wait on a
failed job never returns, and an mp4-regime wait whose offset stays beyond
`progress_bytes + buffer` (progress frozen after failure) never returns
either — contradicting "terminates with an error within one poll interval". -/
theorem failed_job_wait_hangs (offset buffer p : Int) (t : Transcoder) (rc : Int)
    (out : String) (hrc : rc ≠ 0) (hd : t.destroyed = false) :
    ((monitorFinish t rc out).1.done = t.done
      ∧ (monitorFinish t rc out).2 = [Sig.err out]
      ∧ (monitorFinish t rc out).1.state = JobState.Failed ∨ t.done = true)
    ∧ ¬ waitReturns false offset buffer (fun _ => ⟨p, false⟩)
    ∧ (p + buffer < offset → ¬ waitReturns true offset buffer (fun _ => ⟨p, false⟩)) := by
  have hif : rc ≠ 0 ∧ t.destroyed = false := ⟨hrc, hd⟩
  refine ⟨?_, ?_, ?_⟩
  · by_cases ht : t.done = true
    · exact Or.inr ht
    · have hdone : t.done = false := by
        cases h2 : t.done
        · rfl
        · exact absurd h2 ht
      refine Or.inl ⟨?_, ?_, ?_⟩
      · unfold monitorFinish
        rw [if_pos hif]
      · unfold monitorFinish
        rw [if_pos hif]
      · unfold monitorFinish
        rw [if_pos hif]
        unfold Transcoder.state
        simp [hd, hdone]
  · rintro (h0 | ⟨k, hk⟩)
    · simp at h0
    · simp [waitGuard] at hk
  · intro hoff
    rintro (h0 | ⟨k, hk⟩)
    · simp at h0
    · have hlt : ¬ (p + buffer < offset) := by simpa [waitGuard] using hk
      exact hlt hoff

/-- C3 witness: a failed transcoding job (exit code 1, not destroyed) whose
wait at offset `128 MiB + 5` hangs in both regimes. -/
theorem failed_job_wait_hangs_witness :
    ((monitorFinish (mkTranscoder "cast" ⟨"x", "y", false, false⟩ "mkv" "/e.mkv" "/e.mp4"
          ⟨"0:0", "h264"⟩ none) 1 "boom").1.done
        = (mkTranscoder "cast" ⟨"x", "y", false, false⟩ "mkv" "/e.mkv" "/e.mp4"
          ⟨"0:0", "h264"⟩ none).done
      ∧ (monitorFinish (mkTranscoder "cast" ⟨"x", "y", false, false⟩ "mkv" "/e.mkv" "/e.mp4"
          ⟨"0:0", "h264"⟩ none) 1 "boom").2 = [Sig.err "boom"]
      ∧ (monitorFinish (mkTranscoder "cast" ⟨"x", "y", false, false⟩ "mkv" "/e.mkv" "/e.mp4"
          ⟨"0:0", "h264"⟩ none) 1 "boom").1.state = JobState.Failed
      ∨ (mkTranscoder "cast" ⟨"x", "y", false, false⟩ "mkv" "/e.mkv" "/e.mp4"
          ⟨"0:0", "h264"⟩ none).done = true)
    ∧ ¬ waitReturns false (128 * 1024 * 1024 + 5) bufferDefault (fun _ => ⟨0, false⟩)
    ∧ (0 + bufferDefault < 128 * 1024 * 1024 + 5
        → ¬ waitReturns true (128 * 1024 * 1024 + 5) bufferDefault (fun _ => ⟨0, false⟩)) :=
  failed_job_wait_hangs (128 * 1024 * 1024 + 5) bufferDefault 0
    (mkTranscoder "cast" ⟨"x", "y", false, false⟩ "mkv" "/e.mkv" "/e.mp4" ⟨"0:0", "h264"⟩ none)
    1 "boom" (by decide) (by decide)

/-- C7. A prior job that is `Done` (here: a finished passthrough job, whose
`destroyed` flag is unset) makes `_create_transcoder` return without
starting a fresh job, refuting "in every other case (… Done, Failed …) it
destroys any prior job and starts a fresh one". -/
theorem ensure_job_done_cex :
    create_transcoder_proceeds (some (mkTranscoder "tv" ⟨"Sony", "BRAVIA", true, true⟩
        "mp4" "/f.mp4" "/ft.mp4" ⟨"0:0", "h264"⟩ none)) = false
    ∧ Transcoder.state (mkTranscoder "tv" ⟨"Sony", "BRAVIA", true, true⟩
        "mp4" "/f.mp4" "/ft.mp4" ⟨"0:0", "h264"⟩ none) = JobState.Done := by
  decide

/-- C7 (amended). `_create_transcoder` is a no-op exactly when an existing
job for the file is not `Destroyed` — i.e. when it is `Running`, `Done` or
`Failed` alike; a fresh job is started only when there is no prior job or
the prior job is already `Destroyed`. -/
theorem ensure_job_noop_iff (old : Option Transcoder) :
    create_transcoder_proceeds old = false
      ↔ ∃ t, old = some t
          ∧ (t.state = JobState.Running ∨ t.state = JobState.Done
             ∨ t.state = JobState.Failed) := by
  cases old with
  | none => simp [create_transcoder_proceeds]
  | some t =>
    simp only [create_transcoder_proceeds, Option.some.injEq]
    constructor
    · intro h
      refine ⟨t, rfl, ?_⟩
      unfold Transcoder.state
      rw [if_neg (by simp [h])]
      by_cases hdone : t.done = true
      · simp [hdone]
      · by_cases hf : t.failed = true <;> simp [hdone, hf]
    · rintro ⟨t2, heq, hst⟩
      have ht2 : t2.destroyed = false := by
        cases h2 : t2.destroyed
        · rfl
        · unfold Transcoder.state at hst
          rw [if_pos h2] at hst
          rcases hst with h | h | h <;> exact JobState.noConfusion h
      rw [heq]
      exact ht2

/-- C8. A record whose size value is `N/A` makes the conversion raise an
uncaught `ValueError` that kills the monitor thread: the record is not
silently discarded, and the following well-formed record — which on its own
yields a progress update — is never processed. -/
theorem monitor_crash_cex :
    progressOfRecord "size=N/A time=00:00:02.00 bitrate=N/A\r" = none
    ∧ monitorProcess ["size=N/A time=00:00:02.00 bitrate=N/A\r",
                      "size=  10kB time=00:00:04.00 \r"] = ([], false)
    ∧ progressOfRecord "size=  10kB time=00:00:04.00 \r" = some (10240, 4) := by
  refine ⟨by decide, by decide, ?_⟩
  with_unfolding_all rfl

/-- C8 (amended). Records missing the size or time key fall back to the
defaults `0kb` / `00:00:00`, and tokens that are not exactly `key=value` are
dropped, without failure and without stopping later records; but a record
whose size or time value fails numeric conversion (such as `N/A`) raises an
uncaught `ValueError`, terminating the monitor so that no subsequent record
is processed. -/
theorem monitor_partial_records (r : String) (rs : List String) :
    (progressOfRecord "frame=100 fps=25 q=-1.0 Lsize=N/A\r" = some (0, 0)
     ∧ progressOfRecord "foo size=3kB time=00:00:01 a=b=c\r" = some (3072, 1))
    ∧ (∀ u, progressOfRecord r = some u →
        monitorProcess (r :: rs) = (u :: (monitorProcess rs).1, (monitorProcess rs).2))
    ∧ (progressOfRecord r = none → monitorProcess (r :: rs) = ([], false)) := by
  refine ⟨⟨?_, ?_⟩, ?_, ?_⟩
  · with_unfolding_all rfl
  · with_unfolding_all rfl
  · intro u hu
    simp [monitorProcess, hu]
  · intro hn
    simp [monitorProcess, hn]

/-- C8 witness: a lone `size=N/A` record kills the monitor with no update
emitted. -/
theorem monitor_partial_records_witness :
    monitorProcess ["size=N/A\r"] = ([], false) :=
  (monitor_partial_records "size=N/A\r" []).2.2 (by decide)

/-- C9. With the encoder binary missing, constructing a job that must
transcode (mkv container) does not surface a job-level failure: the
`Popen` exception escapes `__init__` uncaught, refuting "surfaced … through
the job's error channel, not as an exception … propagating out of job
construction". -/
theorem encode_start_escape_cex :
    initTranscoder false "cast" ⟨"Unknown manufacturer", "Chromecast", false, false⟩
        "mkv" "/g.mkv" "/g.mp4" ⟨"0:0", "h264"⟩ none
      = Except.error "FileNotFoundError: ffmpeg" := by
  unfold initTranscoder
  rw [if_pos (by decide : (mkTranscoder "cast"
    ⟨"Unknown manufacturer", "Chromecast", false, false⟩
    "mkv" "/g.mkv" "/g.mp4" ⟨"0:0", "h264"⟩ none).transcode = true)]
  rfl

/-- C9 (amended). For every plan that requires transcoding, a missing or
unlaunchable encoder makes job construction itself raise (the `Popen`
exception propagates; nothing is emitted on the `transcode_error` channel),
while with the encoder available construction returns the job having emitted
no signal. -/
theorem encode_start_raises (ct cont src tmp : String) (d : Device)
    (v : StreamMetadata) (a : Option AudioMetadata)
    (htr : (mkTranscoder ct d cont src tmp v a).transcode = true) :
    initTranscoder false ct d cont src tmp v a = Except.error "FileNotFoundError: ffmpeg"
    ∧ initTranscoder true ct d cont src tmp v a
      = Except.ok (mkTranscoder ct d cont src tmp v a, []) := by
  unfold initTranscoder
  rw [if_pos htr, if_pos htr]
  exact ⟨rfl, rfl⟩

/-- C9 witness: the mkv-container job of the counterexample, with and
without the encoder binary. -/
theorem encode_start_raises_witness :
    initTranscoder false "tv" ⟨"Sony", "BRAVIA", true, true⟩
        "mkv" "/h.mkv" "/h.mp4" ⟨"0:0", "h264"⟩ none
      = Except.error "FileNotFoundError: ffmpeg"
    ∧ initTranscoder true "tv" ⟨"Sony", "BRAVIA", true, true⟩
        "mkv" "/h.mkv" "/h.mp4" ⟨"0:0", "h264"⟩ none
      = Except.ok (mkTranscoder "tv" ⟨"Sony", "BRAVIA", true, true⟩
          "mkv" "/h.mkv" "/h.mp4" ⟨"0:0", "h264"⟩ none, []) :=
  encode_start_raises "tv" "mkv" "/h.mkv" "/h.mp4" ⟨"Sony", "BRAVIA", true, true⟩
    ⟨"0:0", "h264"⟩ none (by decide)

/-- C10. Destroy, iterated any number of times, removes at most the job's
private temp path: a file that disappears from disk is the temp path, a
passthrough job has no temp path and removes nothing, and the source file —
distinct from the fresh `mkstemp` path — survives every destroy. -/
theorem destroy_removes_only_temp (ct cont src tmp : String) (d : Device)
    (v : StreamMetadata) (a : Option AudioMetadata) (fs : Finset String) (n : Nat)
    (hfresh : tmp ≠ src) (hsrc : src ∈ fs) :
    (∀ q, q ∈ fs → q ∉ destroyFiles (mkTranscoder ct d cont src tmp v a) fs →
       (mkTranscoder ct d cont src tmp v a).trans_fn = some q)
    ∧ ((mkTranscoder ct d cont src tmp v a).transcode = false →
        (mkTranscoder ct d cont src tmp v a).trans_fn = none
        ∧ destroyFiles (mkTranscoder ct d cont src tmp v a) fs = fs)
    ∧ src ∈ (destroyFiles (mkTranscoder ct d cont src tmp v a))^[n] fs := by
  have hpres : ∀ X : Finset String, src ∈ X →
      src ∈ destroyFiles (mkTranscoder ct d cont src tmp v a) X := by
    intro X hX
    unfold destroyFiles
    rw [mk_trans_fn]
    cases h : (mkTranscoder ct d cont src tmp v a).transcode
    · simpa using hX
    · simp only [if_pos]
      exact Finset.mem_erase.mpr ⟨fun hEq => hfresh hEq.symm, hX⟩
  refine ⟨?_, ?_, ?_⟩
  · intro q hq hnq
    rw [mk_trans_fn]
    unfold destroyFiles at hnq
    rw [mk_trans_fn] at hnq
    cases h : (mkTranscoder ct d cont src tmp v a).transcode
    · simp only [h] at hnq
      simp at hnq
      exact absurd hq hnq
    · simp only [h, if_true] at hnq ⊢
      rcases Decidable.em (q = tmp) with hq2 | hq2
      · rw [hq2]
      · exact absurd (Finset.mem_erase.mpr ⟨hq2, hq⟩) hnq
  · intro h
    have hfn : (mkTranscoder ct d cont src tmp v a).trans_fn = none := by
      rw [mk_trans_fn, h]
      rfl
    refine ⟨hfn, ?_⟩
    unfold destroyFiles
    rw [hfn]
  · induction n with
    | zero => simpa using hsrc
    | succ m ih =>
      rw [Function.iterate_succ_apply']
      exact hpres _ ih

/-- C10 witness: two destroys of an mkv-transcoding job leave the source
file on disk. -/
theorem destroy_removes_only_temp_witness :
    "/i.mkv" ∈ (destroyFiles (mkTranscoder "tv" ⟨"Sony", "BRAVIA", true, true⟩
        "mkv" "/i.mkv" "/it.mp4" ⟨"0:0", "h264"⟩ none))^[2]
        ({"/i.mkv", "/it.mp4"} : Finset String) :=
  (destroy_removes_only_temp "tv" "mkv" "/i.mkv" "/it.mp4" ⟨"Sony", "BRAVIA", true, true⟩
    ⟨"0:0", "h264"⟩ none {"/i.mkv", "/it.mp4"} 2 (by decide) (by simp)).2.2

end QtCast
